import Mathlib

/-!
Verification of the event-sourcing write path with transactional outbox and
CDC relay (Rust repository scylladb_cdc), as a shallow embedding in Lean 4.

Modelling conventions, used throughout:
* UUIDs (uuid::Uuid) are modelled as natural numbers; Uuid::new_v4() draws
  are modelled by explicit supply parameters (a single value or an indexed
  function), because v4 UUID generation is a source of randomness.
* Instants and timestamps (std::time::Instant, chrono DateTime<Utc>) are
  modelled as natural numbers; Utc::now() / Instant::now() become explicit
  time parameters.  Instant::elapsed() at time t is now - t (truncated).
* i64 / i32 values are modelled as Int, u32 as Nat; no arithmetic in the
  modelled code paths can overflow at the values the claims concern.
* Fallible Rust functions returning anyhow::Result are modelled with
  Except String; anyhow error messages are kept where a claim mentions
  them and abbreviated otherwise.
* serde_json serialization of domain events (serialize_event) is kept
  opaque: it is a parameter of type E -> String.  Stored rows keep the
  deserialized event value directly; the repository's own unit tests
  assert that the JSON round-trip is the identity on every event type.
* Async execution, sleeping between retries, and the database session are
  not modelled: each stateful operation is an explicit state-passing
  function, and the claims under verification do not concern real time.
-/

/-- Model of uuid::Uuid: an abstract identifier. -/
abbrev Uuid := Nat

/-- Model of a point in time (std::time::Instant or chrono DateTime<Utc>). -/
abbrev Timestamp := Nat

/-- True exactly on the error constructor of Except. -/
def Except.isErr : Except ε α → Bool
  | .error _ => true
  | .ok _ => false

/-- Decidable equality on Except, for evaluating models at concrete inputs. -/
instance [DecidableEq ε] [DecidableEq α] : DecidableEq (Except ε α) := fun a b =>
  match a, b with
  | .ok x, .ok y =>
      if h : x = y then isTrue (by rw [h]) else isFalse (by intro hc; cases hc; exact h rfl)
  | .error x, .error y =>
      if h : x = y then isTrue (by rw [h]) else isFalse (by intro hc; cases hc; exact h rfl)
  | .ok _, .error _ => isFalse (by intro hc; cases hc)
  | .error _, .ok _ => isFalse (by intro hc; cases hc)

-- ===========================================================================
-- Circuit breaker (src/utils/circuit_breaker.rs)
-- ===========================================================================

/-- States of the circuit breaker (enum CircuitState). -/
inductive CircuitState where
  | Closed
  | Open
  | HalfOpen
deriving DecidableEq, Repr

/-- Configuration of the circuit breaker (struct CircuitBreakerConfig);
timeout is the open timeout, in the same abstract time unit as Timestamp. -/
structure CircuitBreakerConfig where
  failure_threshold : Nat
  timeout : Nat
  success_threshold : Nat
deriving DecidableEq, Repr

/-- Mutable state behind the breaker mutex (struct CircuitBreakerState). -/
structure CircuitBreakerState where
  state : CircuitState
  failure_count : Nat
  success_count : Nat
  last_failure_time : Option Timestamp
deriving DecidableEq, Repr

/-- Error type of a breaker-guarded call (enum CircuitBreakerError<E>). -/
inductive CircuitBreakerError (E : Type) where
  | CircuitOpen
  | OperationFailed (e : E)
deriving DecidableEq, Repr

namespace CircuitBreaker

/-- Initial breaker state as built by CircuitBreaker::new. -/
def initial : CircuitBreakerState :=
  { state := .Closed, failure_count := 0, success_count := 0, last_failure_time := none }

/-- Model of CircuitBreaker::record_success. -/
def record_success (cfg : CircuitBreakerConfig) (st : CircuitBreakerState) :
    CircuitBreakerState :=
  match st.state with
  | .HalfOpen =>
      let sc := st.success_count + 1
      if sc ≥ cfg.success_threshold then
        { st with state := .Closed, failure_count := 0, success_count := 0,
                  last_failure_time := none }
      else
        { st with success_count := sc }
  | .Closed => { st with failure_count := 0 }
  | .Open => st

/-- Model of CircuitBreaker::record_failure; now is Instant::now(). -/
def record_failure (cfg : CircuitBreakerConfig) (st : CircuitBreakerState)
    (now : Timestamp) : CircuitBreakerState :=
  let st1 := { st with failure_count := st.failure_count + 1,
                       last_failure_time := some now }
  match st.state with
  | .Closed =>
      if st1.failure_count ≥ cfg.failure_threshold then { st1 with state := .Open }
      else st1
  | .HalfOpen => { st1 with state := .Open, success_count := 0 }
  | .Open => st1

/-- Model of CircuitBreaker::call.  The guarded operation's eventual result
is passed as the value op (it is consulted only when the call is admitted,
which models the operation being executed only then).  Returns the breaker
state after the call together with the call's result. -/
def call (cfg : CircuitBreakerConfig) (st : CircuitBreakerState) (now : Timestamp)
    (op : Except E T) :
    CircuitBreakerState × Except (CircuitBreakerError E) T :=
  let admitted : Option CircuitBreakerState :=
    match st.state with
    | .Open =>
        match st.last_failure_time with
        | some t =>
            if now - t ≥ cfg.timeout then
              some { st with state := .HalfOpen, success_count := 0 }
            else
              none
        | none => some st
    | .HalfOpen => some st
    | .Closed => some st
  match admitted with
  | none => (st, .error .CircuitOpen)
  | some st1 =>
      match op with
      | .ok v => (record_success cfg st1, .ok v)
      | .error e => (record_failure cfg st1 now, .error (.OperationFailed e))

/-- Iterate n breaker-guarded calls with the same operation result and the
same clock value; returns the final breaker state. -/
def callTimes (cfg : CircuitBreakerConfig) (now : Timestamp) (op : Except E T)
    (st : CircuitBreakerState) : Nat → CircuitBreakerState
  | 0 => st
  | n + 1 => (call cfg (callTimes cfg now op st n) now op).1

end CircuitBreaker

-- ===========================================================================
-- Retry with exponential backoff (src/utils/retry.rs)
-- ===========================================================================

/-- Retry configuration (struct RetryConfig).  Delays are in milliseconds.
The f64 multiplier field and the sleeps between attempts are not modelled
(floating point and real time); no claim concerns the delay values. -/
structure RetryConfig where
  max_attempts : Nat
  initial_delay : Nat
  max_delay : Nat
deriving DecidableEq, Repr

/-- RetryConfig::aggressive(): 5 attempts, 50ms initial, 30s cap. -/
def RetryConfig.aggressive : RetryConfig :=
  { max_attempts := 5, initial_delay := 50, max_delay := 30000 }

/-- RetryConfig::conservative(): 2 attempts, 200ms initial, 5s cap. -/
def RetryConfig.conservative : RetryConfig :=
  { max_attempts := 2, initial_delay := 200, max_delay := 5000 }

/-- Result of a retry loop (enum RetryResult<T, E>). -/
inductive RetryResult (T E : Type) where
  | Success (v : T)
  | Failed (e : E)
  | PermanentFailure (e : E)
deriving DecidableEq, Repr

/-- Loop body of retry_with_backoff.  The operation is a state-passing
function (the Rust closure is FnMut and may share mutable state, e.g. the
broker client's circuit breaker); it receives the 1-based attempt number.
The source loop stops, on failure, when attempt >= max_attempts; here fuel
carries max_attempts - attempt, so fuel = 0 is exactly that condition.
The third result component is a ghost observation: the list of attempt
numbers at which the operation was actually invoked, in order.  -/
def retryGo (op : Nat → σ → σ × Except E T) :
    Nat → Nat → σ → σ × RetryResult T E × List Nat
  | attempt, 0, s =>
      let (s', r) := op attempt s
      match r with
      | .ok v => (s', .Success v, [attempt])
      | .error e => (s', .Failed e, [attempt])
  | attempt, fuel + 1, s =>
      let (s', r) := op attempt s
      match r with
      | .ok v => (s', .Success v, [attempt])
      | .error _e =>
          let (s'', res, tr) := retryGo op (attempt + 1) fuel s'
          (s'', res, attempt :: tr)

/-- Model of retry_with_backoff: attempts start at 1, and on failure the
loop continues while attempt < max_attempts (encoded by the initial fuel
max_attempts - 1, which is 0 both for max_attempts = 1 and, by truncated
subtraction, for max_attempts = 0 — matching the source's first-iteration
test 1 >= max_attempts in both cases). -/
def retry_with_backoff (config : RetryConfig) (op : Nat → σ → σ × Except E T)
    (s : σ) : σ × RetryResult T E × List Nat :=
  retryGo op 1 (config.max_attempts - 1) s

-- ===========================================================================
-- Event envelope (src/event_sourcing/core/event.rs)
-- ===========================================================================

/-- Generic event envelope (struct EventEnvelope<E>). -/
structure EventEnvelope (E : Type) where
  event_id : Uuid
  aggregate_id : Uuid
  sequence_number : Int
  event_type : String
  event_version : Int
  event_data : E
  causation_id : Option Uuid
  correlation_id : Uuid
  user_id : Option Uuid
  timestamp : Timestamp
  metadata : List (String × String)
deriving DecidableEq, Repr

/-- Model of EventEnvelope::new; fresh_event_id models the Uuid::new_v4()
draw and nowT models Utc::now(). -/
def EventEnvelope.new (fresh_event_id : Uuid) (nowT : Timestamp)
    (aggregate_id : Uuid) (sequence_number : Int) (event_type : String)
    (event_data : E) (correlation_id : Uuid) : EventEnvelope E :=
  { event_id := fresh_event_id
    aggregate_id := aggregate_id
    sequence_number := sequence_number
    event_type := event_type
    event_version := 1
    event_data := event_data
    causation_id := none
    correlation_id := correlation_id
    user_id := none
    timestamp := nowT
    metadata := [] }

-- ===========================================================================
-- Event store (src/event_sourcing/store/event_store.rs)
-- ===========================================================================

/-- One row of the event_store table.  The source stores event_data as its
JSON text; here the row keeps the event value itself (round-trip abstracted,
see the header comment). -/
structure EventRow (E : Type) where
  aggregate_id : Uuid
  sequence_number : Int
  event_id : Uuid
  event_type : String
  event_version : Int
  event_data : E
  causation_id : Option Uuid
  correlation_id : Uuid
  timestamp : Timestamp
deriving DecidableEq, Repr

/-- One row of the outbox_messages table. -/
structure OutboxRow where
  id : Uuid
  aggregate_id : Uuid
  aggregate_type : String
  event_id : Uuid
  event_type : String
  event_version : Int
  payload : String
  topic : String
  partition_key : String
  causation_id : Option Uuid
  correlation_id : Uuid
  created_at : Timestamp
  attempts : Int
deriving DecidableEq, Repr

/-- The database state visible to the event store: the event_store table
(rows in insertion order, which for rows written by append_events is
ascending sequence_number per aggregate, matching the clustering order),
the outbox_messages table, and the aggregate_sequence table as a map from
aggregate_id to (current_sequence, updated_at). -/
structure StoreDB (E : Type) where
  event_store : List (EventRow E)
  outbox_messages : List OutboxRow
  aggregate_sequence : Uuid → Option (Int × Timestamp)

/-- Per-aggregate-type configuration of EventStore<E> (EventStore::new),
plus the opaque model of serialize_event (serde_json::to_string). -/
structure EventStoreCfg (E : Type) where
  aggregate_type_name : String
  topic_name : String
  serialize : E → String

namespace EventStore

/-- Model of EventStore::get_current_version: current_sequence of the
aggregate_sequence row, 0 when absent. -/
def get_current_version (db : StoreDB E) (aggregate_id : Uuid) : Int :=
  match db.aggregate_sequence aggregate_id with
  | some (v, _) => v
  | none => 0

/-- The event_store row inserted for one envelope at the given (already
incremented) version, as built in the batch loop of append_events.  Note
the envelope's own sequence_number is ignored: the loop writes new_version. -/
def mkEventRow (aggregate_id : Uuid) (new_version : Int) (env : EventEnvelope E) :
    EventRow E :=
  { aggregate_id := aggregate_id
    sequence_number := new_version
    event_id := env.event_id
    event_type := env.event_type
    event_version := env.event_version
    event_data := env.event_data
    causation_id := env.causation_id
    correlation_id := env.correlation_id
    timestamp := env.timestamp }

/-- The outbox_messages row inserted for one envelope: fresh id (a
Uuid::new_v4() draw, given by the supply), configured aggregate type and
topic, serialized event_data as payload, partition_key the aggregate id
rendered as text, attempts initialized to 0. -/
def mkOutboxRow (cfg : EventStoreCfg E) (aggregate_id : Uuid) (fresh_id : Uuid)
    (nowT : Timestamp) (env : EventEnvelope E) : OutboxRow :=
  { id := fresh_id
    aggregate_id := aggregate_id
    aggregate_type := cfg.aggregate_type_name
    event_id := env.event_id
    event_type := env.event_type
    event_version := env.event_version
    payload := cfg.serialize env.event_data
    topic := cfg.topic_name
    partition_key := toString aggregate_id
    causation_id := env.causation_id
    correlation_id := env.correlation_id
    created_at := nowT
    attempts := 0 }

/-- The batch-building loop of append_events: walks the envelopes carrying
the running new_version and the count idx of outbox ids drawn so far, and
returns the event_store rows, the outbox rows (empty unless
publish_to_outbox), and the final new_version. -/
def buildBatch (cfg : EventStoreCfg E) (aggregate_id : Uuid)
    (publish_to_outbox : Bool) (outbox_ids : Nat → Uuid) (nowT : Timestamp) :
    Nat → Int → List (EventEnvelope E) → List (EventRow E) × List OutboxRow × Int
  | _, v, [] => ([], [], v)
  | idx, v, env :: rest =>
      let nv := v + 1
      let er := mkEventRow aggregate_id nv env
      let obs : List OutboxRow :=
        if publish_to_outbox then [mkOutboxRow cfg aggregate_id (outbox_ids idx) nowT env]
        else []
      let (ers, obss, fv) :=
        buildBatch cfg aggregate_id publish_to_outbox outbox_ids nowT (idx + 1) nv rest
      (er :: ers, obs ++ obss, fv)

/-- Model of EventStore::append_events.  outbox_ids supplies the
Uuid::new_v4() draws for outbox message ids (indexed in draw order) and
nowT models Utc::now().  Returns the database state after the call (the
input state unchanged when the call fails, since the source bails before
issuing the batch) and the result. -/
def append_events (cfg : EventStoreCfg E) (db : StoreDB E) (aggregate_id : Uuid)
    (expected_version : Int) (events : List (EventEnvelope E))
    (publish_to_outbox : Bool) (outbox_ids : Nat → Uuid) (nowT : Timestamp) :
    StoreDB E × Except String Int :=
  if events.isEmpty then
    (db, .error "Cannot append empty event list")
  else
    let current_version := get_current_version db aggregate_id
    if current_version ≠ expected_version then
      (db, .error "Concurrency conflict")
    else
      let (eventRows, outboxRows, new_version) :=
        buildBatch cfg aggregate_id publish_to_outbox outbox_ids nowT 0
          expected_version events
      let db' : StoreDB E :=
        { event_store := db.event_store ++ eventRows
          outbox_messages := db.outbox_messages ++ outboxRows
          aggregate_sequence := fun a =>
            if a = aggregate_id then some (new_version, nowT)
            else db.aggregate_sequence a }
      (db', .ok new_version)

/-- Model of EventStore::load_events: all rows of the aggregate, in stored
order (ascending sequence_number for rows written by append_events),
re-wrapped as envelopes exactly as the source reconstructs them. -/
def load_events (db : StoreDB E) (aggregate_id : Uuid) : List (EventEnvelope E) :=
  (db.event_store.filter (fun r => r.aggregate_id = aggregate_id)).map (fun r =>
    { event_id := r.event_id
      aggregate_id := r.aggregate_id
      sequence_number := r.sequence_number
      event_type := r.event_type
      event_version := r.event_version
      event_data := r.event_data
      causation_id := r.causation_id
      correlation_id := r.correlation_id
      user_id := none
      timestamp := r.timestamp
      metadata := [] })

/-- Model of EventStore::aggregate_exists: current version > 0. -/
def aggregate_exists (db : StoreDB E) (aggregate_id : Uuid) : Bool :=
  get_current_version db aggregate_id > 0

end EventStore

-- ===========================================================================
-- Broker client (src/messaging/redpanda.rs)
-- ===========================================================================

/-- A record as handed to the broker producer: (topic, key, payload). -/
structure BrokerRecord where
  topic : String
  key : String
  payload : String
deriving DecidableEq, Repr

/-- Observable state of the RedpandaClient: the circuit breaker behind the
producer, and (ghost) the list of records the producer has accepted, in
order. -/
structure RedpandaState where
  circuit_breaker : CircuitBreakerState
  delivered : List BrokerRecord
deriving DecidableEq, Repr

/-- The circuit breaker configuration hard-coded in RedpandaClient::new:
failure_threshold 5, open timeout 30s, success_threshold 3 (times here in
seconds). -/
def redpandaCircuitConfig : CircuitBreakerConfig :=
  { failure_threshold := 5, timeout := 30, success_threshold := 3 }

/-- Model of RedpandaClient::publish.  send_ok models whether the
producer.send future would succeed (broker reachable within the 5s send
timeout); it is consulted only when the breaker admits the call.  On
CircuitOpen the source converts the typed breaker error into a plain
anyhow string error "Circuit breaker open for Redpanda" — the same error
type as a transient send failure. -/
def RedpandaClient.publish (topic key payload : String) (send_ok : Bool)
    (now : Timestamp) (st : RedpandaState) : RedpandaState × Except String Unit :=
  let op : Except String Unit :=
    if send_ok then .ok () else .error "Kafka send error"
  let (cb', r) := CircuitBreaker.call redpandaCircuitConfig st.circuit_breaker now op
  match r with
  | .ok _ =>
      ({ circuit_breaker := cb',
         delivered := st.delivered ++ [{ topic := topic, key := key, payload := payload }] },
       .ok ())
  | .error .CircuitOpen =>
      ({ st with circuit_breaker := cb' }, .error "Circuit breaker open for Redpanda")
  | .error (.OperationFailed e) =>
      ({ st with circuit_breaker := cb' }, .error e)

-- ===========================================================================
-- CDC relay consumer (src/actors/infrastructure/cdc_processor.rs,
-- DLQ message from src/actors/infrastructure/dlq.rs)
-- ===========================================================================

/-- CDC operation kinds relevant to the consumer's match (the scylla-cdc
library's OperationType; the remaining variants all fall into the ignored
arm exactly like RowUpdate and RowDelete do). -/
inductive OperationType where
  | PreImage
  | RowUpdate
  | RowInsert
  | RowDelete
  | PostImage
  | PartitionDelete
deriving DecidableEq, Repr

/-- A CDC row for the outbox_messages table: the operation kind and the
column values the consumer reads (none models a missing column or a value
of the wrong type, for which get_value(...).as_uuid()/as_text() yields
None).  The topic column is stored in the outbox but never read by the
consumer; it is kept here so that claims about it can be stated. -/
structure CDCRow where
  operation : OperationType
  id : Option Uuid
  aggregate_id : Option Uuid
  event_type : Option String
  payload : Option String
  topic : Option String
deriving DecidableEq, Repr

/-- The event data extracted from a CDC row (struct OutboxEvent). -/
structure OutboxEvent where
  id : Uuid
  aggregate_id : Uuid
  event_type : String
  payload : String
deriving DecidableEq, Repr

/-- Model of OutboxCDCConsumer::extract_event_from_cdc_row: inserts and
post-images must carry id, aggregate_id, event_type and payload (error
otherwise, propagated by the source's question-mark operator); all other
operations are skipped with Ok(None). -/
def extract_event_from_cdc_row (data : CDCRow) : Except String (Option OutboxEvent) :=
  match data.operation with
  | .RowInsert | .PostImage =>
      match data.id with
      | none => .error "Missing or invalid id"
      | some i =>
          match data.aggregate_id with
          | none => .error "Missing or invalid aggregate_id"
          | some a =>
              match data.event_type with
              | none => .error "Missing or invalid event_type"
              | some et =>
                  match data.payload with
                  | none => .error "Missing or invalid payload"
                  | some p =>
                      .ok (some { id := i, aggregate_id := a, event_type := et, payload := p })
  | _ => .ok none

/-- The AddToDlq message built by the consumer on retry exhaustion
(struct AddToDlq in dlq.rs). -/
structure AddToDlq where
  id : Uuid
  aggregate_id : Uuid
  event_type : String
  payload : String
  error_message : String
  failure_count : Int
  first_failed_at : Timestamp
deriving DecidableEq, Repr

/-- Result of one consume_cdc call: the state of the publish target, the
value consume_cdc returns to the CDC library, and two ghost observations —
the AddToDlq message sent (none when no DLQ send happened, in particular
when dlq_present is false, modelling dlq_actor = None), and the list of
attempt numbers at which publish was invoked. -/
structure ConsumeOutcome (σ : Type) where
  state : σ
  ack : Except String Unit
  dlq_message : Option AddToDlq
  publish_attempts : List Nat
deriving Repr

/-- Model of OutboxCDCConsumer::consume_cdc.  publish is the state-passing
model of RedpandaClient::publish taking (topic, key, payload) — the
consumer passes the row's event_type as the topic and the outbox id
rendered as text as the key; retry_config is the consumer's retry policy
(RetryConfig::aggressive() in OutboxCDCConsumer::new); nowT models the
Utc::now() captured as first_attempt_time just before the retry loop.
The dlq.tell send is fire-and-forget in the source (result discarded), so
only the message content is observable. -/
def consume_cdc (retry_config : RetryConfig) (dlq_present : Bool)
    (publish : String → String → String → σ → σ × Except String Unit)
    (nowT : Timestamp) (data : CDCRow) (s : σ) : ConsumeOutcome σ :=
  match extract_event_from_cdc_row data with
  | .error e => { state := s, ack := .error e, dlq_message := none, publish_attempts := [] }
  | .ok none => { state := s, ack := .ok (), dlq_message := none, publish_attempts := [] }
  | .ok (some event) =>
      let first_attempt_time := nowT
      let (s', res, attempts) :=
        retry_with_backoff retry_config
          (fun _attempt st => publish event.event_type (toString event.id) event.payload st) s
      match res with
      | .Success _ =>
          { state := s', ack := .ok (), dlq_message := none, publish_attempts := attempts }
      | .Failed e | .PermanentFailure e =>
          { state := s'
            ack := .ok ()
            dlq_message :=
              if dlq_present then
                some { id := event.id
                       aggregate_id := event.aggregate_id
                       event_type := event.event_type
                       payload := event.payload
                       error_message := e
                       failure_count := retry_config.max_attempts
                       first_failed_at := first_attempt_time }
              else none
            publish_attempts := attempts }

-- ===========================================================================
-- Customer domain (src/domain/customer/*)
-- ===========================================================================

/-- Customer email value object (struct Email(pub String)). -/
structure Email where
  str : String
deriving DecidableEq, Repr

/-- Customer phone number value object (struct PhoneNumber(pub String)). -/
structure PhoneNumber where
  str : String
deriving DecidableEq, Repr

/-- Customer postal address (struct Address). -/
structure Address where
  street : String
  city : String
  state : String
  postal_code : String
  country : String
deriving DecidableEq, Repr

/-- Customer account status (enum CustomerStatus). -/
inductive CustomerStatus where
  | Active
  | Suspended
  | Deactivated
deriving DecidableEq, Repr

/-- Customer loyalty tier (enum CustomerTier). -/
inductive CustomerTier where
  | Bronze
  | Silver
  | Gold
  | Platinum
deriving DecidableEq, Repr

/-- Kind of payment method (enum PaymentMethodType). -/
inductive PaymentMethodType where
  | CreditCard
  | DebitCard
  | BankAccount
  | DigitalWallet
deriving DecidableEq, Repr

/-- Payment method value object (struct PaymentMethod). -/
structure PaymentMethod where
  id : Uuid
  method_type : PaymentMethodType
  last_four : String
  is_default : Bool
deriving DecidableEq, Repr

/-- Payload structs of the individual customer events (events.rs). -/
structure CustomerRegistered where
  email : Email
  first_name : String
  last_name : String
  phone : Option PhoneNumber
deriving DecidableEq, Repr

structure CustomerProfileUpdated where
  first_name : Option String
  last_name : Option String
  phone : Option PhoneNumber
deriving DecidableEq, Repr

structure CustomerEmailChanged where
  old_email : Email
  new_email : Email
deriving DecidableEq, Repr

structure CustomerPhoneChanged where
  old_phone : Option PhoneNumber
  new_phone : PhoneNumber
deriving DecidableEq, Repr

structure CustomerAddressAdded where
  address_id : Uuid
  address : Address
  is_default : Bool
deriving DecidableEq, Repr

structure CustomerAddressUpdated where
  address_id : Uuid
  address : Address
deriving DecidableEq, Repr

structure CustomerAddressRemoved where
  address_id : Uuid
deriving DecidableEq, Repr

structure CustomerPaymentMethodAdded where
  payment_method : PaymentMethod
deriving DecidableEq, Repr

structure CustomerPaymentMethodRemoved where
  payment_method_id : Uuid
deriving DecidableEq, Repr

structure CustomerTierUpgraded where
  old_tier : CustomerTier
  new_tier : CustomerTier
deriving DecidableEq, Repr

structure CustomerSuspended where
  reason : String
deriving DecidableEq, Repr

structure CustomerReactivated where
  notes : Option String
deriving DecidableEq, Repr

structure CustomerDeactivated where
  reason : String
deriving DecidableEq, Repr

/-- Union of all customer events (enum CustomerEvent). -/
inductive CustomerEvent where
  | Registered (e : CustomerRegistered)
  | ProfileUpdated (e : CustomerProfileUpdated)
  | EmailChanged (e : CustomerEmailChanged)
  | PhoneChanged (e : CustomerPhoneChanged)
  | AddressAdded (e : CustomerAddressAdded)
  | AddressUpdated (e : CustomerAddressUpdated)
  | AddressRemoved (e : CustomerAddressRemoved)
  | PaymentMethodAdded (e : CustomerPaymentMethodAdded)
  | PaymentMethodRemoved (e : CustomerPaymentMethodRemoved)
  | TierUpgraded (e : CustomerTierUpgraded)
  | Suspended (e : CustomerSuspended)
  | Reactivated (e : CustomerReactivated)
  | Deactivated (e : CustomerDeactivated)
deriving DecidableEq, Repr

/-- Customer commands (enum CustomerCommand). -/
inductive CustomerCommand where
  | RegisterCustomer (customer_id : Uuid) (email : Email) (first_name : String)
      (last_name : String) (phone : Option PhoneNumber)
  | UpdateProfile (first_name : Option String) (last_name : Option String)
      (phone : Option PhoneNumber)
  | ChangeEmail (new_email : Email)
  | ChangePhone (new_phone : PhoneNumber)
  | AddAddress (address_id : Uuid) (address : Address) (set_as_default : Bool)
  | UpdateAddress (address_id : Uuid) (address : Address)
  | RemoveAddress (address_id : Uuid)
  | AddPaymentMethod (payment_method : PaymentMethod)
  | RemovePaymentMethod (payment_method_id : Uuid)
  | UpgradeTier (new_tier : CustomerTier)
  | SuspendCustomer (reason : String)
  | ReactivateCustomer (notes : Option String)
  | DeactivateCustomer (reason : String)
deriving DecidableEq, Repr

/-- Customer business-rule errors (enum CustomerError). -/
inductive CustomerError where
  | AlreadySuspended
  | AlreadyDeactivated
  | NotActive
  | NotSuspended
  | InvalidStatus (s : CustomerStatus)
  | EmptyEmail
  | InvalidEmail (s : String)
  | EmptyFirstName
  | EmptyLastName
  | AddressNotFound (id : Uuid)
  | PaymentMethodNotFound (id : Uuid)
  | CannotRemoveDefaultPaymentMethod
  | TierDowngradeNotAllowed
  | NotInitialized
deriving DecidableEq, Repr

/-- Insert-or-replace on an association list, modelling HashMap::insert
(observable content only; iteration order of the Rust HashMap is never
relied on by the modelled code). -/
def mapInsert (m : List (Uuid × α)) (k : Uuid) (v : α) : List (Uuid × α) :=
  if m.any (fun p => p.1 = k) then
    m.map (fun p => if p.1 = k then (k, v) else p)
  else
    m ++ [(k, v)]

/-- Key removal on an association list, modelling HashMap::remove. -/
def mapRemove (m : List (Uuid × α)) (k : Uuid) : List (Uuid × α) :=
  m.filter (fun p => p.1 ≠ k)

/-- Key membership on an association list, modelling HashMap::contains_key. -/
def mapContains (m : List (Uuid × α)) (k : Uuid) : Bool :=
  m.any (fun p => p.1 = k)

/-- The customer aggregate's in-memory state (struct CustomerAggregate). -/
structure CustomerAggregate where
  customer_id : Uuid
  version : Int
  email : Email
  first_name : String
  last_name : String
  phone : Option PhoneNumber
  status : CustomerStatus
  tier : CustomerTier
  addresses : List (Uuid × Address)
  default_address_id : Option Uuid
  payment_methods : List (Uuid × PaymentMethod)
deriving DecidableEq, Repr

namespace CustomerAggregate

/-- Model of CustomerAggregate::validate_email.  The membership test for
the at-sign is taken over the string's character list (the same predicate
as String::contains on a single character). -/
def validate_email (email : Email) : Except CustomerError Unit :=
  if email.str.isEmpty then .error .EmptyEmail
  else if !(email.str.toList.contains '@') then .error (.InvalidEmail email.str)
  else .ok ()

/-- Model of CustomerAggregate::validate_active. -/
def validate_active (self : CustomerAggregate) : Except CustomerError Unit :=
  match self.status with
  | .Active => .ok ()
  | _ => .error .NotActive

/-- Model of CustomerAggregate::apply_first_event.  fresh_customer_id is
the Uuid::new_v4() draw the source assigns to customer_id (source comment:
"Will be overridden by actual ID" — no overriding path exists). -/
def apply_first_event (fresh_customer_id : Uuid) (event : CustomerEvent) :
    Except CustomerError CustomerAggregate :=
  match event with
  | .Registered e =>
      .ok { customer_id := fresh_customer_id
            version := 0
            email := e.email
            first_name := e.first_name
            last_name := e.last_name
            phone := e.phone
            status := .Active
            tier := .Bronze
            addresses := []
            default_address_id := none
            payment_methods := [] }
  | _ => .error .NotInitialized

/-- Model of CustomerAggregate::apply_event.  Every arm of the source's
match returns Ok and ends with self.version += 1, so the model returns the
updated state directly. -/
def apply_event (self : CustomerAggregate) (event : CustomerEvent) :
    CustomerAggregate :=
  let st :=
    match event with
    | .Registered _ => self
    | .ProfileUpdated e =>
        { self with
          first_name := e.first_name.getD self.first_name
          last_name := e.last_name.getD self.last_name
          phone := match e.phone with | some p => some p | none => self.phone }
    | .EmailChanged e => { self with email := e.new_email }
    | .PhoneChanged e => { self with phone := some e.new_phone }
    | .AddressAdded e =>
        { self with
          addresses := mapInsert self.addresses e.address_id e.address
          default_address_id :=
            if e.is_default then some e.address_id else self.default_address_id }
    | .AddressUpdated e =>
        { self with addresses := mapInsert self.addresses e.address_id e.address }
    | .AddressRemoved e =>
        { self with
          addresses := mapRemove self.addresses e.address_id
          default_address_id :=
            if self.default_address_id = some e.address_id then none
            else self.default_address_id }
    | .PaymentMethodAdded e =>
        { self with
          payment_methods :=
            mapInsert self.payment_methods e.payment_method.id e.payment_method }
    | .PaymentMethodRemoved e =>
        { self with
          payment_methods := mapRemove self.payment_methods e.payment_method_id }
    | .TierUpgraded e => { self with tier := e.new_tier }
    | .Suspended _ => { self with status := .Suspended }
    | .Reactivated _ => { self with status := .Active }
    | .Deactivated _ => { self with status := .Deactivated }
  { st with version := st.version + 1 }

/-- Numeric level of a tier, as computed inline in UpgradeTier handling. -/
def tierLevel : CustomerTier → Nat
  | .Bronze => 0
  | .Silver => 1
  | .Gold => 2
  | .Platinum => 3

/-- Model of CustomerAggregate::handle_command. -/
def handle_command (self : CustomerAggregate) (command : CustomerCommand) :
    Except CustomerError (List CustomerEvent) :=
  match command with
  | .RegisterCustomer _ email first_name last_name phone =>
      if first_name.isEmpty then .error .EmptyFirstName
      else if last_name.isEmpty then .error .EmptyLastName
      else
        match validate_email email with
        | .error e => .error e
        | .ok _ =>
            .ok [.Registered { email := email, first_name := first_name,
                               last_name := last_name, phone := phone }]
  | .UpdateProfile first_name last_name phone =>
      match validate_active self with
      | .error e => .error e
      | .ok _ =>
          .ok [.ProfileUpdated { first_name := first_name, last_name := last_name,
                                 phone := phone }]
  | .ChangeEmail new_email =>
      match validate_active self with
      | .error e => .error e
      | .ok _ =>
          match validate_email new_email with
          | .error e => .error e
          | .ok _ =>
              if self.email = new_email then .ok []
              else
                .ok [.EmailChanged { old_email := self.email, new_email := new_email }]
  | .ChangePhone new_phone =>
      match validate_active self with
      | .error e => .error e
      | .ok _ =>
          .ok [.PhoneChanged { old_phone := self.phone, new_phone := new_phone }]
  | .AddAddress address_id address set_as_default =>
      match validate_active self with
      | .error e => .error e
      | .ok _ =>
          .ok [.AddressAdded { address_id := address_id, address := address,
                               is_default := set_as_default }]
  | .UpdateAddress address_id address =>
      match validate_active self with
      | .error e => .error e
      | .ok _ =>
          if !(mapContains self.addresses address_id) then
            .error (.AddressNotFound address_id)
          else
            .ok [.AddressUpdated { address_id := address_id, address := address }]
  | .RemoveAddress address_id =>
      match validate_active self with
      | .error e => .error e
      | .ok _ =>
          if !(mapContains self.addresses address_id) then
            .error (.AddressNotFound address_id)
          else
            .ok [.AddressRemoved { address_id := address_id }]
  | .AddPaymentMethod payment_method =>
      match validate_active self with
      | .error e => .error e
      | .ok _ =>
          .ok [.PaymentMethodAdded { payment_method := payment_method }]
  | .RemovePaymentMethod payment_method_id =>
      match validate_active self with
      | .error e => .error e
      | .ok _ =>
          if !(mapContains self.payment_methods payment_method_id) then
            .error (.PaymentMethodNotFound payment_method_id)
          else
            .ok [.PaymentMethodRemoved { payment_method_id := payment_method_id }]
  | .UpgradeTier new_tier =>
      match validate_active self with
      | .error e => .error e
      | .ok _ =>
          if tierLevel new_tier ≤ tierLevel self.tier then
            .error .TierDowngradeNotAllowed
          else
            .ok [.TierUpgraded { old_tier := self.tier, new_tier := new_tier }]
  | .SuspendCustomer reason =>
      if self.status = .Suspended then .error .AlreadySuspended
      else if self.status = .Deactivated then .error .AlreadyDeactivated
      else .ok [.Suspended { reason := reason }]
  | .ReactivateCustomer notes =>
      if self.status ≠ .Suspended then .error .NotSuspended
      else .ok [.Reactivated { notes := notes }]
  | .DeactivateCustomer reason =>
      if self.status = .Deactivated then .error .AlreadyDeactivated
      else .ok [.Deactivated { reason := reason }]

/-- Model of CustomerAggregate::load_from_events (the override in
aggregate.rs, which sets version from each envelope's sequence_number).
fresh_customer_id is the Uuid::new_v4() draw inside apply_first_event. -/
def load_from_events (fresh_customer_id : Uuid)
    (events : List (EventEnvelope CustomerEvent)) :
    Except String CustomerAggregate :=
  match events with
  | [] => .error "No events to load"
  | first :: rest =>
      match apply_first_event fresh_customer_id first.event_data with
      | .error _ => .error "Failed to apply first event"
      | .ok agg0 =>
          let agg1 := { agg0 with version := first.sequence_number }
          .ok (rest.foldl
            (fun acc env =>
              { apply_event acc env.event_data with version := env.sequence_number })
            agg1)

end CustomerAggregate

-- ===========================================================================
-- Order domain (src/domain/order/*) — the parts the claims concern
-- ===========================================================================

/-- Order line item (struct OrderItem). -/
structure OrderItem where
  product_id : Uuid
  quantity : Int
deriving DecidableEq, Repr

/-- Order lifecycle status (enum OrderStatus). -/
inductive OrderStatus where
  | Created
  | Confirmed
  | Shipped
  | Delivered
  | Cancelled
deriving DecidableEq, Repr

/-- Payload structs of the individual order events (events.rs). -/
structure OrderCreated where
  customer_id : Uuid
  items : List OrderItem
deriving DecidableEq, Repr

structure OrderItemsUpdated where
  items : List OrderItem
  reason : Option String
deriving DecidableEq, Repr

structure OrderConfirmed where
  confirmed_at : Timestamp
deriving DecidableEq, Repr

structure OrderShipped where
  tracking_number : String
  carrier : String
  shipped_at : Timestamp
deriving DecidableEq, Repr

structure OrderDelivered where
  delivered_at : Timestamp
  signature : Option String
deriving DecidableEq, Repr

structure OrderCancelled where
  reason : Option String
  cancelled_by : Option Uuid
deriving DecidableEq, Repr

/-- Union of all order events (enum OrderEvent). -/
inductive OrderEvent where
  | Created (e : OrderCreated)
  | ItemsUpdated (e : OrderItemsUpdated)
  | Confirmed (e : OrderConfirmed)
  | Shipped (e : OrderShipped)
  | Delivered (e : OrderDelivered)
  | Cancelled (e : OrderCancelled)
deriving DecidableEq, Repr

/-- Order business-rule errors (enum OrderError). -/
inductive OrderError where
  | EmptyItems
  | InvalidQuantity (q : Int)
  | AlreadyCancelled
  | AlreadyConfirmed
  | NotConfirmed
  | NotShipped
  | InvalidStatusTransition (s : OrderStatus)
  | NotInitialized
deriving DecidableEq, Repr

/-- The order aggregate's in-memory state (struct OrderAggregate). -/
structure OrderAggregate where
  id : Uuid
  version : Int
  customer_id : Uuid
  items : List OrderItem
  status : OrderStatus
  created_at : Timestamp
  updated_at : Timestamp
  tracking_number : Option String
  carrier : Option String
  cancelled_reason : Option String
deriving DecidableEq, Repr

namespace OrderAggregate

/-- Model of OrderAggregate::apply_first_event.  fresh_id models the
Uuid::new_v4() draw assigned to id (source comment: "Will be set by event
envelope") and nowT the Utc::now() used for both audit timestamps. -/
def apply_first_event (fresh_id : Uuid) (nowT : Timestamp) (event : OrderEvent) :
    Except OrderError OrderAggregate :=
  match event with
  | .Created e =>
      .ok { id := fresh_id
            version := 0
            customer_id := e.customer_id
            items := e.items
            status := .Created
            created_at := nowT
            updated_at := nowT
            tracking_number := none
            carrier := none
            cancelled_reason := none }
  | _ => .error .NotInitialized

/-- Model of OrderAggregate::apply_event.  The source first sets updated_at
to Utc::now() (nowT here), then matches on the event; every arm returns
Ok, and none of them touches the version field. -/
def apply_event (nowT : Timestamp) (self : OrderAggregate) (event : OrderEvent) :
    OrderAggregate :=
  let st0 := { self with updated_at := nowT }
  match event with
  | .Created _ => st0
  | .ItemsUpdated e => { st0 with items := e.items }
  | .Confirmed _ => { st0 with status := .Confirmed }
  | .Shipped e =>
      { st0 with status := .Shipped
                 tracking_number := some e.tracking_number
                 carrier := some e.carrier }
  | .Delivered _ => { st0 with status := .Delivered }
  | .Cancelled e =>
      { st0 with status := .Cancelled, cancelled_reason := e.reason }

end OrderAggregate

-- ===========================================================================
-- Customer command handler (src/domain/customer/command_handler.rs)
-- ===========================================================================

/-- The event_type tag string computed for each customer event in
CustomerCommandHandler::handle. -/
def customerEventTypeTag : CustomerEvent → String
  | .Registered _ => "CustomerRegistered"
  | .ProfileUpdated _ => "CustomerProfileUpdated"
  | .EmailChanged _ => "CustomerEmailChanged"
  | .PhoneChanged _ => "CustomerPhoneChanged"
  | .AddressAdded _ => "CustomerAddressAdded"
  | .AddressUpdated _ => "CustomerAddressUpdated"
  | .AddressRemoved _ => "CustomerAddressRemoved"
  | .PaymentMethodAdded _ => "CustomerPaymentMethodAdded"
  | .PaymentMethodRemoved _ => "CustomerPaymentMethodRemoved"
  | .TierUpgraded _ => "CustomerTierUpgraded"
  | .Suspended _ => "CustomerSuspended"
  | .Reactivated _ => "CustomerReactivated"
  | .Deactivated _ => "CustomerDeactivated"

/-- The envelope-wrapping loop of CustomerCommandHandler::handle: each
domain event gets the next sequence number and a fresh event id (indexed
Uuid::new_v4() supply), the computed event_type tag, and the supplied
correlation id. -/
def wrapEnvelopes (aggregate_id : Uuid) (correlation_id : Uuid)
    (envelope_ids : Nat → Uuid) (nowT : Timestamp) :
    Nat → Int → List CustomerEvent → List (EventEnvelope CustomerEvent)
  | _, _, [] => []
  | idx, seq, ev :: rest =>
      let seq' := seq + 1
      EventEnvelope.new (envelope_ids idx) nowT aggregate_id seq'
          (customerEventTypeTag ev) ev correlation_id ::
        wrapEnvelopes aggregate_id correlation_id envelope_ids nowT (idx + 1) seq' rest

/-- Model of CustomerCommandHandler::handle.  fresh_customer_id is the
Uuid::new_v4() drawn inside apply_first_event when loading or when building
the disposable validation aggregate for RegisterCustomer; envelope_ids and
outbox_ids are the indexed Uuid::new_v4() supplies for envelope event ids
and outbox message ids; nowT models Utc::now().  Returns the database
state after the call and the result (error messages abbreviated). -/
def CustomerCommandHandler.handle (cfg : EventStoreCfg CustomerEvent)
    (db : StoreDB CustomerEvent) (aggregate_id : Uuid) (command : CustomerCommand)
    (correlation_id : Uuid) (fresh_customer_id : Uuid) (envelope_ids : Nat → Uuid)
    (outbox_ids : Nat → Uuid) (nowT : Timestamp) :
    StoreDB CustomerEvent × Except String Int :=
  let loaded : Except String (CustomerAggregate × Int) :=
    if EventStore.aggregate_exists db aggregate_id then
      match CustomerAggregate.load_from_events fresh_customer_id
          (EventStore.load_events db aggregate_id) with
      | .error e => .error e
      | .ok agg => .ok (agg, agg.version)
    else
      match command with
      | .RegisterCustomer _ _ _ _ _ =>
          match CustomerAggregate.apply_first_event fresh_customer_id
              (.Registered { email := { str := "temp@example.com" },
                             first_name := "", last_name := "", phone := none }) with
          | .error _ => .error "Failed to apply first event"
          | .ok agg => .ok (agg, 0)
      | _ => .error "Aggregate does not exist"
  match loaded with
  | .error e => (db, .error e)
  | .ok (aggregate, expected_version) =>
      match aggregate.handle_command command with
      | .error _ => (db, .error "Command failed")
      | .ok domain_events =>
          let envelopes :=
            wrapEnvelopes aggregate_id correlation_id envelope_ids nowT 0
              expected_version domain_events
          EventStore.append_events cfg db aggregate_id expected_version envelopes
            true outbox_ids nowT

-- ===========================================================================
-- Helper lemmas
-- ===========================================================================

/-- An Except value with isErr set is an error. -/
lemma Except.isErr_iff_error {x : Except ε α} : x.isErr = true ↔ ∃ e, x = .error e := by
  cases x <;> simp [Except.isErr]

namespace EventStore

/-- The final new_version returned by the batch loop is the starting
version plus the number of envelopes. -/
lemma buildBatch_version (cfg : EventStoreCfg E) (aid : Uuid) (pub : Bool)
    (ids : Nat → Uuid) (nowT : Timestamp) :
    ∀ (l : List (EventEnvelope E)) (idx : Nat) (v : Int),
      (buildBatch cfg aid pub ids nowT idx v l).2.2 = v + l.length := by
  intro l
  induction l with
  | nil => intro idx v; simp [buildBatch]
  | cons e rest ih =>
      intro idx v
      simp only [buildBatch, ih, List.length_cons]
      push_cast
      omega

/-- The batch loop emits one event_store row per envelope. -/
lemma buildBatch_events_length (cfg : EventStoreCfg E) (aid : Uuid) (pub : Bool)
    (ids : Nat → Uuid) (nowT : Timestamp) :
    ∀ (l : List (EventEnvelope E)) (idx : Nat) (v : Int),
      (buildBatch cfg aid pub ids nowT idx v l).1.length = l.length := by
  intro l
  induction l with
  | nil => intro idx v; simp [buildBatch]
  | cons e rest ih => intro idx v; simp [buildBatch, ih]

/-- The i-th event_store row emitted by the batch loop is the i-th envelope
wrapped at sequence number v + i + 1. -/
lemma buildBatch_events_get (cfg : EventStoreCfg E) (aid : Uuid) (pub : Bool)
    (ids : Nat → Uuid) (nowT : Timestamp) :
    ∀ (l : List (EventEnvelope E)) (idx : Nat) (v : Int) (i : Nat),
      (buildBatch cfg aid pub ids nowT idx v l).1[i]? =
        (l[i]?).map (fun env => mkEventRow aid (v + i + 1) env) := by
  intro l
  induction l with
  | nil => intro idx v i; simp [buildBatch]
  | cons e rest ih =>
      intro idx v i
      match i with
      | 0 => simp [buildBatch]
      | i + 1 =>
          have h2 : v + 1 + (i : Int) + 1 = v + ((i : Int) + 1) + 1 := by omega
          simp only [buildBatch, List.getElem?_cons_succ, ih, h2]
          push_cast
          rfl

/-- With publish_to_outbox set, the batch loop emits one outbox row per
envelope. -/
lemma buildBatch_outbox_length (cfg : EventStoreCfg E) (aid : Uuid)
    (ids : Nat → Uuid) (nowT : Timestamp) :
    ∀ (l : List (EventEnvelope E)) (idx : Nat) (v : Int),
      (buildBatch cfg aid true ids nowT idx v l).2.1.length = l.length := by
  intro l
  induction l with
  | nil => intro idx v; simp [buildBatch]
  | cons e rest ih => intro idx v; simp [buildBatch, ih]

/-- With publish_to_outbox set, the i-th outbox row emitted by the batch
loop is built from the i-th envelope with the (idx + i)-th fresh id. -/
lemma buildBatch_outbox_get (cfg : EventStoreCfg E) (aid : Uuid)
    (ids : Nat → Uuid) (nowT : Timestamp) :
    ∀ (l : List (EventEnvelope E)) (idx : Nat) (v : Int) (i : Nat),
      (buildBatch cfg aid true ids nowT idx v l).2.1[i]? =
        (l[i]?).map (fun env => mkOutboxRow cfg aid (ids (idx + i)) nowT env) := by
  intro l
  induction l with
  | nil => intro idx v i; simp [buildBatch]
  | cons e rest ih =>
      intro idx v i
      match i with
      | 0 => simp [buildBatch]
      | i + 1 =>
          have h2 : idx + 1 + i = idx + (i + 1) := by omega
          simp [buildBatch, ih, h2]

end EventStore

-- ===========================================================================
-- C1 — append_events precondition failures write nothing
-- ===========================================================================

/-- C1: for every aggregate_id, expected_version and envelope list, if the
stored current_sequence (0 when absent) differs from expected_version, or
the envelope list is empty, then append_events returns an error and leaves
the database state unchanged: no event_store rows, no outbox rows, and no
aggregate-sequence update are written. -/
theorem append_events_precondition_failure_writes_nothing
    (cfg : EventStoreCfg E) (db : StoreDB E) (aggregate_id : Uuid)
    (expected_version : Int) (events : List (EventEnvelope E))
    (publish_to_outbox : Bool) (outbox_ids : Nat → Uuid) (nowT : Timestamp)
    (h : EventStore.get_current_version db aggregate_id ≠ expected_version ∨
         events = []) :
    (EventStore.append_events cfg db aggregate_id expected_version events
        publish_to_outbox outbox_ids nowT).2.isErr = true ∧
    (EventStore.append_events cfg db aggregate_id expected_version events
        publish_to_outbox outbox_ids nowT).1 = db := by
  by_cases hemp : events.isEmpty
  · simp [EventStore.append_events, hemp, Except.isErr]
  · have hne : events ≠ [] := by
      simpa [List.isEmpty_iff] using hemp
    have hv : EventStore.get_current_version db aggregate_id ≠ expected_version := by
      rcases h with h | h
      · exact h
      · exact absurd h hne
    simp [EventStore.append_events, hemp, hv, Except.isErr]

/-- Witness for C1 at a concrete input: an empty database has current
version 0, so an append expecting version 1 fails and writes nothing. -/
theorem append_events_precondition_failure_writes_nothing_witness :
    (EventStore.get_current_version
        (⟨[], [], fun _ => none⟩ : StoreDB Unit) 3 ≠ 1 ∨
      ([EventEnvelope.new 9 0 3 1 "E" () 4]) = []) ∧
    (EventStore.append_events ⟨"Order", "order-events", fun _ => "J"⟩
        (⟨[], [], fun _ => none⟩ : StoreDB Unit) 3 1
        [EventEnvelope.new 9 0 3 1 "E" () 4] true (fun n => 40 + n) 7).2.isErr = true := by
  refine ⟨Or.inl (by decide), ?_⟩
  exact (append_events_precondition_failure_writes_nothing
    ⟨"Order", "order-events", fun _ => "J"⟩ ⟨[], [], fun _ => none⟩ 3 1
    [EventEnvelope.new 9 0 3 1 "E" () 4] true (fun n => 40 + n) 7
    (Or.inl (by decide))).1

-- ===========================================================================
-- C2 — contents of a successful append
-- ===========================================================================

/-- C2: for every successful append_events(aggregate_id, expected_version,
events, publish_to_outbox = true): the i-th (0-based here) event_store row
written carries sequence_number = expected_version + i + 1 regardless of
the sequence numbers in the caller's envelopes (mkEventRow ignores them);
exactly one outbox row is written per envelope, carrying that envelope's
event_id, payload = the serialized event_data, the configured topic, and
partition_key = the aggregate id rendered as text (all visible in
mkOutboxRow); the aggregate-sequence record is upserted to
expected_version + events.length; and that value is returned. -/
theorem append_events_success_contents
    (cfg : EventStoreCfg E) (db : StoreDB E) (aggregate_id : Uuid)
    (expected_version : Int) (events : List (EventEnvelope E))
    (outbox_ids : Nat → Uuid) (nowT : Timestamp)
    (hne : events ≠ [])
    (hver : EventStore.get_current_version db aggregate_id = expected_version) :
    (EventStore.append_events cfg db aggregate_id expected_version events
        true outbox_ids nowT).2 = .ok (expected_version + events.length) ∧
    (EventStore.append_events cfg db aggregate_id expected_version events
        true outbox_ids nowT).1.event_store.length =
      db.event_store.length + events.length ∧
    (∀ i : Nat,
      (EventStore.append_events cfg db aggregate_id expected_version events
          true outbox_ids nowT).1.event_store[db.event_store.length + i]? =
        (events[i]?).map
          (fun env => EventStore.mkEventRow aggregate_id (expected_version + i + 1) env)) ∧
    (EventStore.append_events cfg db aggregate_id expected_version events
        true outbox_ids nowT).1.outbox_messages.length =
      db.outbox_messages.length + events.length ∧
    (∀ i : Nat,
      (EventStore.append_events cfg db aggregate_id expected_version events
          true outbox_ids nowT).1.outbox_messages[db.outbox_messages.length + i]? =
        (events[i]?).map
          (fun env => EventStore.mkOutboxRow cfg aggregate_id (outbox_ids i) nowT env)) ∧
    EventStore.get_current_version
      (EventStore.append_events cfg db aggregate_id expected_version events
          true outbox_ids nowT).1 aggregate_id = expected_version + events.length := by
  have hemp : events.isEmpty = false := by
    simpa [List.isEmpty_iff] using hne
  simp only [EventStore.append_events, hemp, Bool.false_eq_true, if_false, hver,
    ne_eq, not_true_eq_false, if_true, ite_false]
  refine ⟨?_, ?_, ?_, ?_, ?_, ?_⟩
  · simp [EventStore.buildBatch_version]
  · simp [EventStore.buildBatch_events_length]
  · intro i
    rw [List.getElem?_append_right (by omega)]
    have : db.event_store.length + i - db.event_store.length = i := by omega
    rw [this, EventStore.buildBatch_events_get]
  · simp [EventStore.buildBatch_outbox_length]
  · intro i
    rw [List.getElem?_append_right (by omega)]
    have : db.outbox_messages.length + i - db.outbox_messages.length = i := by omega
    rw [this, EventStore.buildBatch_outbox_get]
    simp
  · simp [EventStore.get_current_version, EventStore.buildBatch_version]

/-- Witness for C2 at a concrete input: appending two envelopes (whose own
sequence numbers are deliberately wrong: 99 and 100) to an empty store at
expected version 0 returns 2, writes rows numbered 1 and 2, and mirrors
each envelope's event_id into exactly one outbox row. -/
theorem append_events_success_contents_witness :
    ([EventEnvelope.new 9 0 3 99 "E" () 4, EventEnvelope.new 10 0 3 100 "E" () 4] ≠
        ([] : List (EventEnvelope Unit))) ∧
    EventStore.get_current_version (⟨[], [], fun _ => none⟩ : StoreDB Unit) 3 = 0 ∧
    (EventStore.append_events ⟨"Order", "order-events", fun _ => "J"⟩
        (⟨[], [], fun _ => none⟩ : StoreDB Unit) 3 0
        [EventEnvelope.new 9 0 3 99 "E" () 4, EventEnvelope.new 10 0 3 100 "E" () 4]
        true (fun n => 40 + n) 7).2 = .ok 2 := by
  refine ⟨by decide, by decide, ?_⟩
  have h := (append_events_success_contents
    ⟨"Order", "order-events", fun _ => "J"⟩ ⟨[], [], fun _ => none⟩ 3 0
    [EventEnvelope.new 9 0 3 99 "E" () 4, EventEnvelope.new 10 0 3 100 "E" () 4]
    (fun n => 40 + n) 7 (by decide) (by decide)).1
  simpa using h

-- ===========================================================================
-- C3 — circuit breaker behaviour
-- ===========================================================================

namespace CircuitBreaker

/-- After k < failure_threshold consecutive failing calls from the initial
state, the breaker is still Closed with failure_count = k. -/
lemma callTimes_failures_closed (cfg : CircuitBreakerConfig) (e : String) :
    ∀ k, k < cfg.failure_threshold →
      callTimes cfg 0 (.error e : Except String Unit) initial k =
        { state := .Closed, failure_count := k, success_count := 0,
          last_failure_time := if k = 0 then none else some 0 } := by
  intro k
  induction k with
  | zero => intro _; simp [callTimes, initial]
  | succ k ih =>
      intro hk
      have hk' : k < cfg.failure_threshold := by omega
      have hlt : ¬ (k + 1 ≥ cfg.failure_threshold) := by omega
      simp [callTimes, ih hk', call, record_failure, hlt]

/-- After exactly failure_threshold consecutive failing calls from the
initial state (threshold at least 1), the breaker is Open. -/
lemma callTimes_failures_open (cfg : CircuitBreakerConfig) (e : String)
    (h1 : 1 ≤ cfg.failure_threshold) :
    (callTimes cfg 0 (.error e : Except String Unit) initial
        cfg.failure_threshold).state = .Open := by
  obtain ⟨t, ht⟩ : ∃ t, cfg.failure_threshold = t + 1 :=
    ⟨cfg.failure_threshold - 1, by omega⟩
  have hlt : t < cfg.failure_threshold := by omega
  rw [ht]
  simp [callTimes, callTimes_failures_closed cfg e t hlt, call, record_failure, ht]

/-- After k < success_threshold consecutive successful calls from a
HalfOpen state with success counter 0, the breaker is still HalfOpen with
success_count = k and everything else unchanged. -/
lemma callTimes_successes_halfopen (cfg : CircuitBreakerConfig)
    (st0 : CircuitBreakerState) (now : Timestamp)
    (h0 : st0.state = .HalfOpen) (hsc : st0.success_count = 0) :
    ∀ k, k < cfg.success_threshold →
      callTimes cfg now (.ok () : Except String Unit) st0 k =
        { st0 with success_count := k } := by
  intro k
  induction k with
  | zero =>
      intro _
      cases st0
      simp_all [callTimes]
  | succ k ih =>
      intro hk
      have hk' : k < cfg.success_threshold := by omega
      have hlt : ¬ (k + 1 ≥ cfg.success_threshold) := by omega
      simp [callTimes, ih hk', call, record_success, h0, hlt]

end CircuitBreaker

/-- Counterexample to C3 as stated: the claim says exactly one trial call
is admitted in HalfOpen per success_threshold window, but with
configuration (failure_threshold 1, open_timeout 5, success_threshold 2)
the breaker, opened by a failure at time 0, admits a first call at time 5
(transitioning to HalfOpen) and then, still inside the same window (only
one success recorded, fewer than success_threshold = 2), admits a second
call from the HalfOpen state as well: neither call is rejected with
CircuitOpen. -/
theorem circuit_breaker_halfopen_admits_more_than_one_counterexample :
    (CircuitBreaker.call ⟨1, 5, 2⟩ CircuitBreaker.initial 0
        (.error "e" : Except String Unit)).1.state = .Open ∧
    (CircuitBreaker.call ⟨1, 5, 2⟩
        (CircuitBreaker.call ⟨1, 5, 2⟩ CircuitBreaker.initial 0
          (.error "e" : Except String Unit)).1 5
        (.ok () : Except String Unit)).2 = .ok () ∧
    (CircuitBreaker.call ⟨1, 5, 2⟩
        (CircuitBreaker.call ⟨1, 5, 2⟩ CircuitBreaker.initial 0
          (.error "e" : Except String Unit)).1 5
        (.ok () : Except String Unit)).1.state = .HalfOpen ∧
    (CircuitBreaker.call ⟨1, 5, 2⟩
        (CircuitBreaker.call ⟨1, 5, 2⟩
          (CircuitBreaker.call ⟨1, 5, 2⟩ CircuitBreaker.initial 0
            (.error "e" : Except String Unit)).1 5
          (.ok () : Except String Unit)).1 5
        (.ok () : Except String Unit)).2 = .ok () := by
  decide

/-- C3 (amended): with configuration (failure_threshold, open_timeout,
success_threshold): (a) failure_threshold consecutive recorded failures
from the initial Closed state open the circuit; (b) while Open, every call
made before open_timeout has elapsed since the last failure returns
CircuitOpen with the state unchanged and without the wrapped operation
being invoked (the result does not depend on the operation's outcome);
(c) once open_timeout has elapsed the next call transitions the breaker to
HalfOpen (resetting the success counter) and is admitted; (d) in HalfOpen
every call is admitted — not only one per window — and success_threshold
consecutive successes from entering HalfOpen return the state to Closed
with both counters reset; (e) any failure in HalfOpen returns the state to
Open. -/
theorem circuit_breaker_behaviour_amended :
    (∀ (cfg : CircuitBreakerConfig) (e : String), 1 ≤ cfg.failure_threshold →
      (CircuitBreaker.callTimes cfg 0 (.error e : Except String Unit)
          CircuitBreaker.initial cfg.failure_threshold).state = .Open) ∧
    (∀ (cfg : CircuitBreakerConfig) (st : CircuitBreakerState) (now t : Timestamp)
        (op₁ op₂ : Except String Unit),
      st.state = .Open → st.last_failure_time = some t → now - t < cfg.timeout →
      CircuitBreaker.call cfg st now op₁ = (st, .error .CircuitOpen) ∧
      CircuitBreaker.call cfg st now op₁ = CircuitBreaker.call cfg st now op₂) ∧
    (∀ (cfg : CircuitBreakerConfig) (st : CircuitBreakerState) (now t : Timestamp)
        (op : Except String Unit),
      st.state = .Open → st.last_failure_time = some t → cfg.timeout ≤ now - t →
      CircuitBreaker.call cfg st now op =
        (match op with
         | .ok v => (CircuitBreaker.record_success cfg
             { st with state := .HalfOpen, success_count := 0 }, .ok v)
         | .error e => (CircuitBreaker.record_failure cfg
             { st with state := .HalfOpen, success_count := 0 } now,
             .error (.OperationFailed e)))) ∧
    (∀ (cfg : CircuitBreakerConfig) (st : CircuitBreakerState) (now : Timestamp)
        (op : Except String Unit),
      st.state = .HalfOpen → (CircuitBreaker.call cfg st now op).2 ≠ .error .CircuitOpen) ∧
    (∀ (cfg : CircuitBreakerConfig) (st : CircuitBreakerState) (now : Timestamp),
      st.state = .HalfOpen → st.success_count = 0 → 1 ≤ cfg.success_threshold →
      CircuitBreaker.callTimes cfg now (.ok () : Except String Unit) st
          cfg.success_threshold =
        { st with state := .Closed, failure_count := 0, success_count := 0,
                  last_failure_time := none }) ∧
    (∀ (cfg : CircuitBreakerConfig) (st : CircuitBreakerState) (now : Timestamp)
        (e : String),
      st.state = .HalfOpen →
      ((CircuitBreaker.call cfg st now (.error e : Except String Unit)).1.state = .Open ∧
       (CircuitBreaker.call cfg st now (.error e : Except String Unit)).1.success_count = 0)) := by
  refine ⟨?_, ?_, ?_, ?_, ?_, ?_⟩
  · intro cfg e h1
    exact CircuitBreaker.callTimes_failures_open cfg e h1
  · intro cfg st now t op₁ op₂ hst hlf hlt
    have hnot : ¬ (now - t ≥ cfg.timeout) := not_le.mpr hlt
    constructor
    · simp [CircuitBreaker.call, hst, hlf, hnot]
    · simp [CircuitBreaker.call, hst, hlf, hnot]
  · intro cfg st now t op hst hlf hge
    cases op <;> simp [CircuitBreaker.call, hst, hlf, hge]
  · intro cfg st now op hst
    cases op <;> simp [CircuitBreaker.call, hst]
  · intro cfg st now hst hsc h1
    obtain ⟨t, ht⟩ : ∃ t, cfg.success_threshold = t + 1 :=
      ⟨cfg.success_threshold - 1, by omega⟩
    have hlt : t < cfg.success_threshold := by omega
    rw [ht]
    simp [CircuitBreaker.callTimes,
      CircuitBreaker.callTimes_successes_halfopen cfg st now hst hsc t hlt,
      CircuitBreaker.call, CircuitBreaker.record_success, hst, ht]
  · intro cfg st now e hst
    simp [CircuitBreaker.call, CircuitBreaker.record_failure, hst]

/-- Witness for C3 (amended) at concrete inputs: with configuration
(failure_threshold 2, open_timeout 10, success_threshold 2), two failures
from the initial state open the circuit; a call at time 3 (elapsed 3 < 10
since the failure at time 0) is rejected with the state unchanged; and two
successes from a fresh HalfOpen state close the circuit. -/
theorem circuit_breaker_behaviour_amended_witness :
    (CircuitBreaker.callTimes ⟨2, 10, 2⟩ 0 (.error "e" : Except String Unit)
        CircuitBreaker.initial 2).state = .Open ∧
    (CircuitBreaker.call ⟨2, 10, 2⟩
        ⟨.Open, 2, 0, some 0⟩ 3 (.ok () : Except String Unit)) =
      (⟨.Open, 2, 0, some 0⟩, .error .CircuitOpen) ∧
    CircuitBreaker.callTimes ⟨2, 10, 2⟩ 50 (.ok () : Except String Unit)
        ⟨.HalfOpen, 2, 0, some 0⟩ 2 = ⟨.Closed, 0, 0, none⟩ := by
  refine ⟨?_, ?_, ?_⟩
  · exact (circuit_breaker_behaviour_amended).1 ⟨2, 10, 2⟩ "e" (by decide)
  · exact ((circuit_breaker_behaviour_amended).2.1 ⟨2, 10, 2⟩ ⟨.Open, 2, 0, some 0⟩ 3 0
      (.ok ()) (.ok ()) rfl rfl (by decide)).1
  · exact (circuit_breaker_behaviour_amended).2.2.2.2.1 ⟨2, 10, 2⟩ ⟨.HalfOpen, 2, 0, some 0⟩
      50 rfl rfl (by decide)


-- ===========================================================================
-- C4 — retry_with_backoff behaviour
-- ===========================================================================

/-- Lifting of a state-independent operation into the state-passing shape
retry_with_backoff expects. -/
def pureOp (op : Nat → Except E T) : Nat → Unit → Unit × Except E T :=
  fun n _ => ((), op n)

/-- The ghost invocation trace of the retry loop is a contiguous run of
attempt numbers starting at the loop's first attempt. -/
lemma retryGo_trace (op : Nat → σ → σ × Except E T) :
    ∀ (fuel attempt : Nat) (s : σ), ∃ k,
      (retryGo op attempt fuel s).2.2 = List.range' attempt k := by
  intro fuel
  induction fuel with
  | zero =>
      intro attempt s
      refine ⟨1, ?_⟩
      simp only [retryGo]
      rcases hop : op attempt s with ⟨s', r⟩
      cases r <;> simp [List.range']
  | succ fuel ih =>
      intro attempt s
      simp only [retryGo]
      rcases hop : op attempt s with ⟨s', r⟩
      cases r with
      | ok v => exact ⟨1, by simp [List.range']⟩
      | error e =>
          obtain ⟨k, hk⟩ := ih (attempt + 1) s'
          refine ⟨k + 1, ?_⟩
          simp [hk, List.range'_succ]

/-- If the operation fails at every attempt from the current one through
the end of the fuel, the loop returns Failed with the error of the last
attempt, having invoked the operation at every attempt number in between. -/
lemma retryGo_pure_allfail (op : Nat → Except E T) :
    ∀ (fuel attempt : Nat) (e : E),
      (∀ i, attempt ≤ i → i ≤ attempt + fuel → (op i).isErr = true) →
      op (attempt + fuel) = .error e →
      retryGo (pureOp op) attempt fuel () =
        ((), .Failed e, List.range' attempt (fuel + 1)) := by
  intro fuel
  induction fuel with
  | zero =>
      intro attempt e _ hlast
      simp only [Nat.add_zero] at hlast
      simp [retryGo, pureOp, hlast, List.range']
  | succ fuel ih =>
      intro attempt e hall hlast
      obtain ⟨e0, he0⟩ := Except.isErr_iff_error.1
        (hall attempt (le_refl _) (by omega))
      have hrec := ih (attempt + 1) e
        (fun i h1 h2 => hall i (by omega) (by omega))
        (by rw [show attempt + 1 + fuel = attempt + (fuel + 1) by omega]; exact hlast)
      simp [retryGo, pureOp, he0, hrec, List.range'_succ]

/-- If the operation fails at every attempt before j and succeeds at j,
which is within the loop's budget, the loop returns Success with j's value
and stops immediately, having invoked attempts up to j only. -/
lemma retryGo_pure_success (op : Nat → Except E T) :
    ∀ (fuel attempt j : Nat) (v : T),
      attempt ≤ j → j ≤ attempt + fuel →
      (∀ i, attempt ≤ i → i < j → (op i).isErr = true) →
      op j = .ok v →
      retryGo (pureOp op) attempt fuel () =
        ((), .Success v, List.range' attempt (j + 1 - attempt)) := by
  intro fuel
  induction fuel with
  | zero =>
      intro attempt j v h1 h2 _ hok
      have hj : j = attempt := by omega
      subst hj
      simp [retryGo, pureOp, hok, List.range']
  | succ fuel ih =>
      intro attempt j v h1 h2 hfail hok
      by_cases hj : attempt = j
      · subst hj
        simp [retryGo, pureOp, hok, List.range']
      · obtain ⟨e0, he0⟩ := Except.isErr_iff_error.1
          (hfail attempt (le_refl _) (by omega))
        have hrec := ih (attempt + 1) j v (by omega) (by omega)
          (fun i hi1 hi2 => hfail i (by omega) hi2) hok
        have hlen : j + 1 - attempt = (j + 1 - (attempt + 1)) + 1 := by omega
        simp [retryGo, pureOp, he0, hrec, hlen, List.range'_succ]

/-- Counterexample to C4 as stated: the claim says that when every attempt
fails the operation has been invoked exactly max_attempts times, but with
max_attempts = 0 the loop still performs its first iteration, so an
always-failing operation is invoked once (at attempt number 1), not zero
times, and the call returns Failed. -/
theorem retry_with_backoff_zero_attempts_counterexample :
    (retry_with_backoff { max_attempts := 0, initial_delay := 100, max_delay := 10000 }
        (fun _ (s : Unit) => (s, (.error "boom" : Except String Unit))) ()).2.2 = [1] ∧
    (retry_with_backoff { max_attempts := 0, initial_delay := 100, max_delay := 10000 }
        (fun _ (s : Unit) => (s, (.error "boom" : Except String Unit))) ()).2.1 =
      .Failed "boom" ∧
    (1 : Nat) ≠
      ({ max_attempts := 0, initial_delay := 100, max_delay := 10000 } : RetryConfig).max_attempts := by
  refine ⟨rfl, rfl, by decide⟩

/-- C4 (amended): retry_with_backoff invokes the operation with attempt
numbers 1, 2, 3, ... in order (the invocation trace is a contiguous run
starting at 1); it returns Success(result) as soon as any attempt
succeeds, invoking the operation exactly up to that attempt; and if every
attempt fails it returns Failed carrying the error of the last attempt
after the operation has been invoked exactly max(max_attempts, 1) times —
a configuration with max_attempts = 0 still performs one attempt. -/
theorem retry_with_backoff_behaviour_amended :
    (∀ (config : RetryConfig) (op : Nat → σ → σ × Except E T) (s : σ),
      (retry_with_backoff config op s).2.2 =
        List.range' 1 (retry_with_backoff config op s).2.2.length) ∧
    (∀ (config : RetryConfig) (op : Nat → Except E T) (j : Nat) (v : T),
      1 ≤ j → j ≤ max config.max_attempts 1 →
      (∀ i, 1 ≤ i → i < j → (op i).isErr = true) →
      op j = .ok v →
      retry_with_backoff config (pureOp op) () =
        ((), .Success v, List.range' 1 j)) ∧
    (∀ (config : RetryConfig) (op : Nat → Except E T) (e : E),
      (∀ i, 1 ≤ i → i ≤ max config.max_attempts 1 → (op i).isErr = true) →
      op (max config.max_attempts 1) = .error e →
      retry_with_backoff config (pureOp op) () =
        ((), .Failed e, List.range' 1 (max config.max_attempts 1))) := by
  refine ⟨?_, ?_, ?_⟩
  · intro config op s
    obtain ⟨k, hk⟩ := retryGo_trace op (config.max_attempts - 1) 1 s
    rw [retry_with_backoff, hk, List.length_range']
  · intro config op j v h1 h2 hfail hok
    have hj : j + 1 - 1 = j := by omega
    rw [retry_with_backoff,
      retryGo_pure_success op (config.max_attempts - 1) 1 j v h1 (by omega) hfail hok, hj]
  · intro config op e hall hlast
    have hm : 1 + (config.max_attempts - 1) = max config.max_attempts 1 := by omega
    have hc : config.max_attempts - 1 + 1 = max config.max_attempts 1 := by omega
    have h := retryGo_pure_allfail op (config.max_attempts - 1) 1 e
      (fun i hi1 hi2 => hall i hi1 (by omega)) (by rw [hm]; exact hlast)
    rw [retry_with_backoff, h, hc]

/-- Witness for C4 (amended) at concrete inputs: with max_attempts = 3 and
an operation that fails at attempts 1 and 2 and succeeds at attempt 3
with value 7, the loop returns Success 7 after invoking attempts 1, 2, 3;
with an operation that always fails it returns Failed of the last error
after 3 invocations. -/
theorem retry_with_backoff_behaviour_amended_witness :
    retry_with_backoff { max_attempts := 3, initial_delay := 100, max_delay := 10000 }
        (pureOp (fun n => if n = 3 then (.ok 7 : Except String Nat) else .error "t")) () =
      ((), .Success 7, [1, 2, 3]) ∧
    retry_with_backoff { max_attempts := 3, initial_delay := 100, max_delay := 10000 }
        (pureOp (fun _ => (.error "down" : Except String Nat))) () =
      ((), .Failed "down", [1, 2, 3]) := by
  constructor
  · have h := (retry_with_backoff_behaviour_amended (σ := Unit) (E := String) (T := Nat)).2.1
      { max_attempts := 3, initial_delay := 100, max_delay := 10000 }
      (fun n => if n = 3 then (.ok 7 : Except String Nat) else .error "t") 3 7
      (by decide) (by decide)
      (by intro i hi1 hi2; interval_cases i <;> decide) (by decide)
    simpa [List.range'] using h
  · have h := (retry_with_backoff_behaviour_amended (σ := Unit) (E := String) (T := Nat)).2.2
      { max_attempts := 3, initial_delay := 100, max_delay := 10000 }
      (fun _ => (.error "down" : Except String Nat)) "down"
      (by intro i _ _; rfl) (by decide)
    simpa [List.range'] using h


-- ===========================================================================
-- C5 — the relay's error propagation
-- ===========================================================================

/-- When extraction succeeds with an event and the retry loop ends in
Failed, consume_cdc acknowledges with Ok and emits the DLQ record built
from the event, the last error, max_attempts and the pre-retry
timestamp. -/
lemma consume_cdc_on_failed (cfg : RetryConfig)
    (publish : String → String → String → σ → σ × Except String Unit)
    (nowT : Timestamp) (row : CDCRow) (s s' : σ) (ev : OutboxEvent)
    (e : String) (tr : List Nat)
    (hx : extract_event_from_cdc_row row = .ok (some ev))
    (hr : retry_with_backoff cfg
        (fun _attempt st => publish ev.event_type (toString ev.id) ev.payload st) s =
      (s', .Failed e, tr)) :
    consume_cdc cfg true publish nowT row s =
      { state := s'
        ack := .ok ()
        dlq_message := some
          { id := ev.id, aggregate_id := ev.aggregate_id,
            event_type := ev.event_type, payload := ev.payload,
            error_message := e, failure_count := cfg.max_attempts,
            first_failed_at := nowT }
        publish_attempts := tr } := by
  simp [consume_cdc, hx, hr]

/-- Counterexample to C5 as stated: the claim says consume_cdc returns Ok
for every CDC row, but for an insert row whose id column is missing (or
not a uuid) the extraction error is propagated upward by the source's
question-mark operator, and consume_cdc returns an error to the CDC
library. -/
theorem consume_cdc_malformed_insert_counterexample :
    (consume_cdc RetryConfig.aggressive true
        (fun _ _ _ (s : Unit) => (s, .ok ())) 0
        { operation := .RowInsert, id := none, aggregate_id := some 1,
          event_type := some "OrderCreated", payload := some "P",
          topic := some "order-events" } ()).ack =
      .error "Missing or invalid id" ∧
    (consume_cdc RetryConfig.aggressive true
        (fun _ _ _ (s : Unit) => (s, .ok ())) 0
        { operation := .RowInsert, id := none, aggregate_id := some 1,
          event_type := some "OrderCreated", payload := some "P",
          topic := some "order-events" } ()).ack.isErr = true := by
  exact ⟨rfl, rfl⟩

/-- C5 (amended): for every CDC row from which extraction succeeds (a
well-formed insert or post-image, or any ignored non-insert operation),
consume_cdc returns Ok — publish failures are not propagated to the
caller; and when the retries over a well-formed insert end in Failed (or
PermanentFailure, handled by the same match arm) with the DLQ actor
present, consume_cdc still returns Ok and sends a DLQ record carrying
failure_count = max_attempts, error_message = the last error rendered as
a string, and first_failed_at = the timestamp captured before the first
attempt.  A malformed insert row, by contrast, makes consume_cdc return
an error upward (see the counterexample). -/
theorem consume_cdc_never_fails_upward_amended :
    (∀ (cfg : RetryConfig) (dlq_present : Bool)
        (publish : String → String → String → σ → σ × Except String Unit)
        (nowT : Timestamp) (row : CDCRow) (s : σ) (x : Option OutboxEvent),
      extract_event_from_cdc_row row = .ok x →
      (consume_cdc cfg dlq_present publish nowT row s).ack = .ok ()) ∧
    (∀ (cfg : RetryConfig)
        (publish : String → String → String → σ → σ × Except String Unit)
        (nowT : Timestamp) (row : CDCRow) (s s' : σ) (ev : OutboxEvent)
        (e : String) (tr : List Nat),
      extract_event_from_cdc_row row = .ok (some ev) →
      retry_with_backoff cfg
          (fun _attempt st => publish ev.event_type (toString ev.id) ev.payload st) s =
        (s', .Failed e, tr) →
      consume_cdc cfg true publish nowT row s =
        { state := s'
          ack := .ok ()
          dlq_message := some
            { id := ev.id, aggregate_id := ev.aggregate_id,
              event_type := ev.event_type, payload := ev.payload,
              error_message := e, failure_count := cfg.max_attempts,
              first_failed_at := nowT }
          publish_attempts := tr }) := by
  constructor
  · intro cfg dlq_present publish nowT row s x hx
    cases x with
    | none => simp [consume_cdc, hx]
    | some ev =>
        rcases hr : retry_with_backoff cfg
            (fun _attempt st => publish ev.event_type (toString ev.id) ev.payload st) s
          with ⟨s', res, tr⟩
        cases res <;> simp [consume_cdc, hx, hr]
  · intro cfg publish nowT row s s' ev e tr hx hr
    exact consume_cdc_on_failed cfg publish nowT row s s' ev e tr hx hr

/-- Witness for C5 (amended) at concrete inputs: a well-formed insert row
whose publish always fails is acknowledged with Ok, and the DLQ record
carries the last error, failure_count 5 (the aggressive max_attempts) and
the pre-retry timestamp 9. -/
theorem consume_cdc_never_fails_upward_amended_witness :
    consume_cdc RetryConfig.aggressive true
        (fun _ _ _ (s : Unit) => (s, (.error "down" : Except String Unit))) 9
        { operation := .RowInsert, id := some 42, aggregate_id := some 7,
          event_type := some "OrderCreated", payload := some "P",
          topic := some "order-events" } () =
      { state := ()
        ack := .ok ()
        dlq_message := some
          { id := 42, aggregate_id := 7, event_type := "OrderCreated",
            payload := "P", error_message := "down", failure_count := 5,
            first_failed_at := 9 }
        publish_attempts := [1, 2, 3, 4, 5] } := by
  have h := (consume_cdc_never_fails_upward_amended (σ := Unit)).2
    RetryConfig.aggressive
    (fun _ _ _ (s : Unit) => (s, (.error "down" : Except String Unit))) 9
    { operation := .RowInsert, id := some 42, aggregate_id := some 7,
      event_type := some "OrderCreated", payload := some "P",
      topic := some "order-events" } () ()
    { id := 42, aggregate_id := 7, event_type := "OrderCreated", payload := "P" }
    "down" [1, 2, 3, 4, 5] rfl rfl
  simpa using h

-- ===========================================================================
-- C6 — circuit-open publishes and the relay's retry
-- ===========================================================================

/-- A retry loop over an operation that, at the given state, fails leaving
the state unchanged, runs to exhaustion at that state: it invokes the
operation at every attempt number the fuel allows and returns Failed with
the operation's error. -/
lemma retryGo_const_state_fail (op : Nat → σ → σ × Except E T) (s : σ) (m : E)
    (h : ∀ n, op n s = (s, .error m)) :
    ∀ (fuel attempt : Nat),
      retryGo op attempt fuel s = (s, .Failed m, List.range' attempt (fuel + 1)) := by
  intro fuel
  induction fuel with
  | zero => intro a; simp [retryGo, h a, List.range']
  | succ f ih => intro a; simp [retryGo, h a, ih (a + 1), List.range'_succ]

/-- Counterexample to C6 as stated: the claim says the relay's retry does
not re-attempt a publish that fails with the circuit open and
short-circuits after a single invocation; but with the breaker Open (last
failure at time 100, so the 30s open timeout has not elapsed at time 100)
the relay invokes publish at attempts 1 through 5 — five invocations, not
one — before routing the event to the DLQ, because publish collapses
CircuitOpen into a plain string error that retry_with_backoff does not
inspect. -/
theorem circuit_open_publish_retried_counterexample :
    (consume_cdc RetryConfig.aggressive true
        (fun x y z s => RedpandaClient.publish x y z true 100 s) 100
        { operation := .RowInsert, id := some 42, aggregate_id := some 7,
          event_type := some "OrderCreated", payload := some "PAYLOAD",
          topic := some "order-events" }
        { circuit_breaker :=
            { state := .Open, failure_count := 5, success_count := 0,
              last_failure_time := some 100 },
          delivered := [] }).publish_attempts = [1, 2, 3, 4, 5] ∧
    ([1, 2, 3, 4, 5] : List Nat).length ≠ 1 ∧
    (consume_cdc RetryConfig.aggressive true
        (fun x y z s => RedpandaClient.publish x y z true 100 s) 100
        { operation := .RowInsert, id := some 42, aggregate_id := some 7,
          event_type := some "OrderCreated", payload := some "PAYLOAD",
          topic := some "order-events" }
        { circuit_breaker :=
            { state := .Open, failure_count := 5, success_count := 0,
              last_failure_time := some 100 },
          delivered := [] }).dlq_message =
      some { id := 42, aggregate_id := 7, event_type := "OrderCreated",
             payload := "PAYLOAD",
             error_message := "Circuit breaker open for Redpanda",
             failure_count := 5, first_failed_at := 100 } := by
  refine ⟨rfl, by decide, rfl⟩

/-- C6 (amended): while the broker client's circuit breaker is Open and
the open timeout has not elapsed, publish returns the plain string error
"Circuit breaker open for Redpanda" — the same anyhow error type as a
transient send failure, so the relay's retry layer cannot distinguish it —
without invoking the producer (the result is the same for every send
outcome and the delivered list is unchanged); and the relay's
retry_with_backoff re-attempts such a publish the full max_attempts = 5
times (not once) before routing the event to the DLQ with that error
message. -/
theorem circuit_open_publish_behaviour_amended
    (st : RedpandaState) (t now : Timestamp)
    (hopen : st.circuit_breaker.state = .Open)
    (hlf : st.circuit_breaker.last_failure_time = some t)
    (hlt : now - t < redpandaCircuitConfig.timeout) :
    (∀ (topic key payload : String) (send_ok : Bool),
      RedpandaClient.publish topic key payload send_ok now st =
        (st, .error "Circuit breaker open for Redpanda")) ∧
    (∀ (row : CDCRow) (ev : OutboxEvent) (send_ok : Bool),
      extract_event_from_cdc_row row = .ok (some ev) →
      consume_cdc RetryConfig.aggressive true
          (fun x y z s => RedpandaClient.publish x y z send_ok now s) now row st =
        { state := st
          ack := .ok ()
          dlq_message := some
            { id := ev.id, aggregate_id := ev.aggregate_id,
              event_type := ev.event_type, payload := ev.payload,
              error_message := "Circuit breaker open for Redpanda",
              failure_count := 5, first_failed_at := now }
          publish_attempts := [1, 2, 3, 4, 5] }) := by
  have hnot : ¬ (now - t ≥ redpandaCircuitConfig.timeout) := not_le.mpr hlt
  have hpub : ∀ (topic key payload : String) (send_ok : Bool),
      RedpandaClient.publish topic key payload send_ok now st =
        (st, .error "Circuit breaker open for Redpanda") := by
    intro topic key payload send_ok
    simp [RedpandaClient.publish, CircuitBreaker.call, hopen, hlf, hnot]
  refine ⟨hpub, ?_⟩
  intro row ev send_ok hx
  have hop : ∀ n, (fun (_attempt : Nat) (s : RedpandaState) =>
      (fun x y z s' => RedpandaClient.publish x y z send_ok now s')
        ev.event_type (toString ev.id) ev.payload s) n st =
      (st, (.error "Circuit breaker open for Redpanda" : Except String Unit)) :=
    fun _ => hpub ev.event_type (toString ev.id) ev.payload send_ok
  have hr : retry_with_backoff RetryConfig.aggressive
      (fun _attempt s =>
        (fun x y z s' => RedpandaClient.publish x y z send_ok now s')
          ev.event_type (toString ev.id) ev.payload s) st =
      (st, .Failed "Circuit breaker open for Redpanda", [1, 2, 3, 4, 5]) := by
    rw [retry_with_backoff]
    simpa using retryGo_const_state_fail _ st "Circuit breaker open for Redpanda" hop 4 1
  have h := consume_cdc_on_failed RetryConfig.aggressive
    (fun x y z s' => RedpandaClient.publish x y z send_ok now s') now row st st ev
    "Circuit breaker open for Redpanda" [1, 2, 3, 4, 5] hx hr
  rw [h]
  simp [RetryConfig.aggressive]

/-- Witness for C6 (amended) at concrete inputs: breaker opened by a
failure at time 100, consumed at time 100 (elapsed 0 < 30): publish
returns the circuit-open string error with the state unchanged, and the
relay retries the full five attempts before sending the DLQ record. -/
theorem circuit_open_publish_behaviour_amended_witness :
    RedpandaClient.publish "OrderCreated" "42" "PAYLOAD" true 100
        { circuit_breaker :=
            { state := .Open, failure_count := 5, success_count := 0,
              last_failure_time := some 100 },
          delivered := [] } =
      ({ circuit_breaker :=
           { state := .Open, failure_count := 5, success_count := 0,
             last_failure_time := some 100 },
         delivered := [] }, .error "Circuit breaker open for Redpanda") ∧
    (consume_cdc RetryConfig.aggressive true
        (fun x y z s => RedpandaClient.publish x y z true 100 s) 100
        { operation := .RowInsert, id := some 42, aggregate_id := some 7,
          event_type := some "OrderCreated", payload := some "PAYLOAD",
          topic := some "order-events" }
        { circuit_breaker :=
            { state := .Open, failure_count := 5, success_count := 0,
              last_failure_time := some 100 },
          delivered := [] }).publish_attempts.length = 5 := by
  have h := circuit_open_publish_behaviour_amended
    ⟨⟨.Open, 5, 0, some 100⟩, []⟩ 100 100 rfl rfl (by decide)
  have h2 := h.2 ⟨.RowInsert, some 42, some 7, some "OrderCreated",
    some "PAYLOAD", some "order-events"⟩ ⟨42, 7, "OrderCreated", "PAYLOAD"⟩ true rfl
  refine ⟨h.1 "OrderCreated" "42" "PAYLOAD" true, ?_⟩
  rw [h2]
  rfl

-- ===========================================================================
-- C7 — the broker record the relay publishes
-- ===========================================================================

/-- Counterexample to C7 as stated: the claim says the record's topic is
the configured topic stored in the outbox row (here "order-events"), but
the consumer never reads the row's topic column and instead passes the
row's event_type to publish as the topic: for an outbox CDC row whose
event_type is "OrderCreated" and whose stored topic is "order-events",
the record accepted by the producer carries topic "OrderCreated". -/
theorem relay_broker_record_topic_counterexample :
    (consume_cdc RetryConfig.aggressive true
        (fun x y z s => RedpandaClient.publish x y z true 0 s) 0
        { operation := .RowInsert, id := some 42, aggregate_id := some 7,
          event_type := some "OrderCreated", payload := some "PAYLOAD",
          topic := some "order-events" }
        { circuit_breaker := CircuitBreaker.initial, delivered := [] }).state.delivered =
      [{ topic := "OrderCreated", key := "42", payload := "PAYLOAD" }] ∧
    "OrderCreated" ≠ "order-events" := by
  exact ⟨rfl, by decide⟩

/-- C7 (amended): for every outbox CDC row the relay publishes through a
closed circuit breaker with a reachable broker, the record accepted by
the producer is (topic, key, payload) with key = the outbox row's id
rendered as text and payload = the exact payload stored in the outbox
row, but topic = the row's event_type (e.g. "OrderCreated") — the
configured topic stored in the row's topic column (e.g. "order-events")
is never read by the relay, whatever it contains. -/
theorem relay_broker_record_shape_amended
    (st : RedpandaState) (row : CDCRow) (i a : Uuid) (et p : String)
    (now : Timestamp) (dlq_present : Bool)
    (hop : row.operation = .RowInsert) (hid : row.id = some i)
    (hagg : row.aggregate_id = some a) (het : row.event_type = some et)
    (hp : row.payload = some p)
    (hcb : st.circuit_breaker = CircuitBreaker.initial) :
    consume_cdc RetryConfig.aggressive dlq_present
        (fun x y z s => RedpandaClient.publish x y z true now s) now row st =
      { state :=
          { circuit_breaker := CircuitBreaker.initial
            delivered := st.delivered ++ [{ topic := et, key := toString i, payload := p }] }
        ack := .ok ()
        dlq_message := none
        publish_attempts := [1] } := by
  have hx : extract_event_from_cdc_row row =
      .ok (some { id := i, aggregate_id := a, event_type := et, payload := p }) := by
    simp [extract_event_from_cdc_row, hop, hid, hagg, het, hp]
  simp [consume_cdc, hx, retry_with_backoff, RetryConfig.aggressive, retryGo,
    RedpandaClient.publish, CircuitBreaker.call, CircuitBreaker.record_success,
    hcb, CircuitBreaker.initial]

/-- Witness for C7 (amended) at a concrete input: the outbox row with
event_type "OrderCreated" and stored topic "order-events" is published as
a record with topic "OrderCreated", key "42" (the outbox id as text) and
the stored payload. -/
theorem relay_broker_record_shape_amended_witness :
    consume_cdc RetryConfig.aggressive true
        (fun x y z s => RedpandaClient.publish x y z true 3 s) 3
        { operation := .RowInsert, id := some 42, aggregate_id := some 7,
          event_type := some "OrderCreated", payload := some "PAYLOAD",
          topic := some "order-events" }
        { circuit_breaker := CircuitBreaker.initial, delivered := [] } =
      { state :=
          { circuit_breaker := CircuitBreaker.initial
            delivered := [{ topic := "OrderCreated", key := "42", payload := "PAYLOAD" }] }
        ack := .ok ()
        dlq_message := none
        publish_attempts := [1] } := by
  have h := relay_broker_record_shape_amended
    ⟨CircuitBreaker.initial, []⟩
    ⟨.RowInsert, some 42, some 7, some "OrderCreated", some "PAYLOAD", some "order-events"⟩
    42 7 "OrderCreated" "PAYLOAD" 3 true rfl rfl rfl rfl rfl rfl
  simpa using h

-- ===========================================================================
-- C8 — determinism of CustomerAggregate::load_from_events
-- ===========================================================================

/-- A concrete one-event stream: a CustomerRegistered birth event wrapped
at sequence number 1. -/
def customerRegEnvelope : EventEnvelope CustomerEvent :=
  EventEnvelope.new 100 0 7 1 "CustomerRegistered"
    (.Registered { email := { str := "jane@example.com" }, first_name := "Jane",
                   last_name := "Doe", phone := none }) 55

/-- C8 (code bug): CustomerAggregate::load_from_events is not a function
of the event stream alone — apply_first_event assigns customer_id a fresh
Uuid::new_v4() draw (modelled by the explicit supply argument), with the
source comment "Will be overridden by actual ID" although no overriding
path exists; two runs on the identical stream that draw different UUIDs
(here 11 and 22) produce aggregates with different customer_id.  The spec
itself flags this as a bug (design note: the birth event should carry the
canonical id), so the claim states the intent and the code deviates. -/
theorem load_from_events_customer_id_not_deterministic :
    (CustomerAggregate.load_from_events 11 [customerRegEnvelope]).toOption.map
        (fun a => a.customer_id) = some 11 ∧
    (CustomerAggregate.load_from_events 22 [customerRegEnvelope]).toOption.map
        (fun a => a.customer_id) = some 22 ∧
    (11 : Uuid) ≠ 22 := by
  exact ⟨rfl, rfl, by decide⟩

-- ===========================================================================
-- C9 — apply_event and the aggregate version
-- ===========================================================================

/-- A concrete order aggregate in state Created, version 0, as produced by
apply_first_event. -/
def orderCreatedAggregate : OrderAggregate :=
  { id := 1, version := 0, customer_id := 2,
    items := [{ product_id := 3, quantity := 2 }], status := .Created,
    created_at := 0, updated_at := 0, tracking_number := none, carrier := none,
    cancelled_reason := none }

/-- Counterexample to C9 as stated: OrderAggregate::apply_event does not
advance the version — applying an OrderConfirmed event to an order at
version 0 leaves the version at 0, not 1 (the order aggregate's version is
set only by load_from_events, from the envelopes' sequence numbers). -/
theorem order_apply_event_version_counterexample :
    (OrderAggregate.apply_event 5 orderCreatedAggregate
        (.Confirmed { confirmed_at := 5 })).version = orderCreatedAggregate.version ∧
    orderCreatedAggregate.version ≠ orderCreatedAggregate.version + 1 := by
  exact ⟨rfl, by decide⟩

/-- C9 (amended): CustomerAggregate::apply_event advances the aggregate's
internal version by exactly 1 on every event (every event is accepted),
while OrderAggregate::apply_event accepts every event but leaves the
version unchanged. -/
theorem apply_event_version_behaviour_amended :
    (∀ (st : CustomerAggregate) (ev : CustomerEvent),
      (CustomerAggregate.apply_event st ev).version = st.version + 1) ∧
    (∀ (nowT : Timestamp) (st : OrderAggregate) (ev : OrderEvent),
      (OrderAggregate.apply_event nowT st ev).version = st.version) := by
  constructor
  · intro st ev
    cases ev <;> simp [CustomerAggregate.apply_event]
  · intro nowT st ev
    cases ev <;> simp [OrderAggregate.apply_event]

-- ===========================================================================
-- C10 — a no-op ChangeEmail cannot complete
-- ===========================================================================

/-- The stored birth event of the C10 scenario's customer. -/
def c10CustomerEvent : CustomerEvent :=
  .Registered { email := { str := "jane@example.com" }, first_name := "Jane",
                last_name := "Doe", phone := none }

/-- The stored event row of one registered, active customer (aggregate 7)
at sequence number 1. -/
def c10Row : EventRow CustomerEvent :=
  { aggregate_id := 7
    sequence_number := 1
    event_id := 100
    event_type := "CustomerRegistered"
    event_version := 1
    event_data := c10CustomerEvent
    causation_id := none
    correlation_id := 55
    timestamp := 0 }

/-- A database holding the one event row above, with the aggregate
sequence of aggregate 7 at 1. -/
def c10Db : StoreDB CustomerEvent :=
  { event_store := [c10Row]
    outbox_messages := []
    aggregate_sequence := fun a => if a = 7 then some (1, 0) else none }

/-- C10: a ChangeEmail command whose new_email equals the active
customer's current email makes handle_command return Ok with an empty
event list; the command handler passes that empty list to append_events,
which rejects it, so CustomerCommandHandler::handle returns an error
instead of the unchanged version, and no state is written. -/
theorem change_email_noop_command_fails :
    (CustomerCommandHandler.handle
        { aggregate_type_name := "Customer", topic_name := "customer-events",
          serialize := fun _ => "" }
        c10Db 7 (.ChangeEmail { str := "jane@example.com" }) 56 99
        (fun n => 200 + n) (fun n => 300 + n) 5).2 =
      .error "Cannot append empty event list" ∧
    (CustomerCommandHandler.handle
        { aggregate_type_name := "Customer", topic_name := "customer-events",
          serialize := fun _ => "" }
        c10Db 7 (.ChangeEmail { str := "jane@example.com" }) 56 99
        (fun n => 200 + n) (fun n => 300 + n) 5).1 = c10Db := by
  exact ⟨rfl, rfl⟩
